import Mathlib

/-!
Verification of the SeMPyRO FDP repository client
(`docs/Usage_example_FDP.ipynb`, classes `FDPEndPoints`, `FDPClientException`,
`FDPClient`, and the bulk publish loop) against its natural-language
specification.

The Python code is shallowly embedded: the HTTP transport (the `requests`
library) is a parameter of type `Transport`, a pure function from requests to
outcomes; `requests.Session` header dictionaries are association lists with
Python dict update semantics; exceptions become an explicit error type
threaded through `Except`; every client operation returns its result, the
client state after the call (the Python methods mutate `self`), and the list
of HTTP requests it issued.
-/

set_option autoImplicit false

namespace SeMPyRO

/-! ## Dictionaries (Python `dict` as association lists) -/

/-- Membership test for a key, as Python `k in d`. -/
def containsKey : List (String × String) → String → Bool
  | [], _ => false
  | p :: rest, k => p.1 = k || containsKey rest k

/-- Lookup, as Python `d[k]` / `d.get(k)`: the first matching entry. -/
def getKey : List (String × String) → String → Option String
  | [], _ => none
  | p :: rest, k => if p.1 = k then some p.2 else getKey rest k

/-- Assignment `d[k] = v`: overwrite every entry with key `k` if present
(a Python dict holds a key at most once, so on dict-shaped lists this is the
single existing entry), otherwise append the new entry. -/
def setKey (hs : List (String × String)) (k v : String) : List (String × String) :=
  if containsKey hs k then hs.map (fun p => if p.1 = k then (k, v) else p)
  else hs ++ [(k, v)]

/-- Python `base.update(upd)`: assign every entry of `upd` into `base`,
in order. -/
def updateDict (base upd : List (String × String)) : List (String × String) :=
  upd.foldl (fun acc p => setKey acc p.1 p.2) base

/-- Value of the last entry with key `k`, the value that survives when the
list is folded into a dict entry by entry. -/
def lastValue : List (String × String) → String → Option String
  | [], _ => none
  | p :: rest, k =>
    match lastValue rest k with
    | some v => some v
    | none => if p.1 = k then some p.2 else none

/-! ## HTTP layer -/

/-- One HTTP request as handed to the `requests` library: the `json=` keyword
argument of `requests.post` is kept separately from a raw `data=` body, and
`verify` is the certificate-verification flag (`True` when the caller passes
nothing, which is the `requests` default). -/
structure HttpRequest where
  method : String
  url : String
  headers : List (String × String)
  params : Option (List (String × String))
  body : Option String
  jsonBody : Option (List (String × String))
  verify : Bool
  deriving Repr, DecidableEq

/-- One HTTP response. `jsonFields` is the parsed JSON object of the body as
`response.json()` would return it (the mocks under test provide well-formed
JSON bodies). -/
structure HttpResponse where
  status : Nat
  headers : List (String × String)
  jsonFields : List (String × String)
  body : String
  deriving Repr, DecidableEq

/-- Outcome of handing a request to the transport: either a response arrived
(whatever its status), or the request failed at network level
(`requests.exceptions.ConnectionError` and kin), carrying the message of the
raised exception. -/
inductive HttpOutcome where
  | response (r : HttpResponse)
  | netFail (msg : String)
  deriving Repr, DecidableEq

/-- The pluggable HTTP transport: what the `requests` library does with one
request. -/
abbrev Transport := HttpRequest → HttpOutcome

/-! ## Python-level errors -/

/-- The exceptions the client code can raise: `FDPClientException` (which
carries exactly one payload, its message string), Python `KeyError`, and
Python `ValueError`. -/
inductive PyError where
  | fdp (message : String)
  | keyError (key : String)
  | valueError (message : String)
  deriving Repr, DecidableEq

/-- Python renders `str(KeyError(k))` as the repr of the key. -/
def pyKeyErrorStr (k : String) : String := "\x27" ++ k ++ "\x27"

/-- Message of the `requests.exceptions.HTTPError` raised by
`raise_for_status` on a 4xx/5xx response: a function of the status code and
the request URL only (the response body is not part of it). -/
def httpErrorMsg (status : Nat) (url : String) : String :=
  (if status < 500 then toString status ++ " Client Error for url: "
   else toString status ++ " Server Error for url: ") ++ url

/-! ## URL handling -/

/-- Whether a string is an absolute http(s) URL. -/
def isAbsoluteUrl (s : String) : Bool :=
  "http://".data.isPrefixOf s.data || "https://".data.isPrefixOf s.data

/-- Python `urllib.parse.urljoin(base, url)` restricted to the shapes the
client produces: every path `_call_method` receives is an absolute URL, and
`urljoin` returns an absolute second argument unchanged. The relative branch
(never exercised by the client, whose paths are all built from absolute URLs)
is approximated by plain concatenation. -/
def urljoin (base url : String) : String :=
  if isAbsoluteUrl url then url else base ++ url

/-! ## FDPEndPoints -/

/-- Class attribute `FDPEndPoints.meta = "meta"`. -/
def FDPEndPoints.meta : String := "meta"

/-- Class attribute `FDPEndPoints.state = f"{meta}/state"`. -/
def FDPEndPoints.state : String := FDPEndPoints.meta ++ "/state"

/-- Class attribute `FDPEndPoints.members = "members"`. -/
def FDPEndPoints.members : String := "members"

/-- Class attribute `FDPEndPoints.expanded = "expanded"`. -/
def FDPEndPoints.expanded : String := "expanded"

/-! ## Graphs -/

/-- An `rdflib.Graph` as the client sees it: the client only ever calls
`metadata.serialize()` and sends the resulting text, so a graph is
represented by its serialized Turtle form (serialization itself is rdflib,
an external collaborator). -/
structure Graph where
  serializedForm : String
  deriving Repr, DecidableEq

/-- Method call `metadata.serialize()`. -/
def Graph.serialize (g : Graph) : String := g.serializedForm

/-! ## The FDP client -/

/-- State of one `FDPClient` object: the constructor arguments, the token
obtained at login, `self.headers`, the session's header dict
(`self.session.headers`), and `self.ssl_verification`. -/
structure FDPClient where
  base_url : String
  username : String
  password : String
  token : String
  headers : List (String × String)
  sessionHeaders : List (String × String)
  ssl_verification : Bool
  deriving Repr, DecidableEq

/-- The request issued by `login_fdp`: `requests.post(f"{base_url}/tokens",
json={"email": username, "password": password})`. It goes through a bare
`requests.post`, not the session (no session exists yet), carries no custom
headers, and passes no `verify` argument (the line passing
`self.ssl_verification` is commented out in the source, and the attribute is
not even assigned yet at that point), so certificate verification is the
`requests` default `True`. -/
def loginRequest (base_url username password : String) : HttpRequest :=
  { method := "POST"
    url := base_url ++ "/tokens"
    headers := []
    params := none
    body := none
    jsonBody := some [("email", username), ("password", password)]
    verify := true }

/-- Method `FDPClient.login_fdp`: POST the credentials, `raise_for_status`,
then read `response.json()["token"]`. A network failure or an HTTP error
status is a `requests.exceptions.RequestException`, caught and re-raised as
`FDPClientException(f"Login failed: {str(e)}")`; a missing `"token"` field
raises a bare `KeyError`, which nothing catches. -/
def login_fdp (T : Transport) (base_url username password : String) :
    Except PyError String × List HttpRequest :=
  let req := loginRequest base_url username password
  match T req with
  | .netFail m => (.error (.fdp ("Login failed: " ++ m)), [req])
  | .response r =>
    if 400 ≤ r.status then
      (.error (.fdp ("Login failed: " ++ httpErrorMsg r.status req.url)), [req])
    else
      match getKey r.jsonFields "token" with
      | some t => (.ok t, [req])
      | none => (.error (.keyError "token"), [req])

/-- Method `FDPClient.get_headers`. -/
def get_headers (token : String) : List (String × String) :=
  [("Authorization", "Bearer " ++ token), ("Content-Type", "text/turtle")]

/-- Constructor `FDPClient.__init__(base_url, username, password,
verify_ssl)`: log in (which may raise), then set `self.headers`, create the
session and update its headers (a fresh session's defaults are modeled as
empty), and only then assign `self.ssl_verification = verify_ssl`. The
`urllib3.disable_warnings` side effect for `verify_ssl=False` is not
modeled. Returns the constructed client or the raised error, together with
the requests issued. -/
def FDPClient.init (T : Transport) (base_url username password : String)
    (verify_ssl : Bool) : Except PyError FDPClient × List HttpRequest :=
  let (tokRes, tr) := login_fdp T base_url username password
  match tokRes with
  | .error e => (.error e, tr)
  | .ok token =>
    let hs := get_headers token
    (.ok { base_url := base_url
           username := username
           password := password
           token := token
           headers := hs
           sessionHeaders := updateDict [] hs
           ssl_verification := verify_ssl }, tr)

/-- Python `method.upper()`, written character by character (as Lean's
`String.toUpper` is) so that it reduces inside the kernel. -/
def pyToUpper (s : String) : String := String.mk (s.data.map Char.toUpper)

/-- The membership test of `_call_method`:
`method.upper() in ["GET", "POST", "PUT", "DELETE"]`. -/
def supportedMethod (m : String) : Bool :=
  pyToUpper m = "GET" || pyToUpper m = "POST" || pyToUpper m = "PUT" ||
    pyToUpper m = "DELETE"

/-- Result of one client operation: its value or raised error, the client
state after the call, and the HTTP requests issued during it. -/
structure OpResult (α : Type) where
  result : Except PyError α
  client : FDPClient
  trace : List HttpRequest

/-- Method `FDPClient._call_method(method, path, params, data)`: reject
unsupported verbs with `ValueError` (before any request is sent), build the
URL with `urljoin`, issue the request through the session (so with the
session's current headers and `verify=self.ssl_verification`), then
`raise_for_status`; any `requests.exceptions.RequestException` is re-raised
as `FDPClientException(f"Request failed:{str(e)}")` (the response text, when
present, is only logged, never attached to the exception). -/
def callMethod (c : FDPClient) (T : Transport) (method path : String)
    (params : Option (List (String × String))) (data : Option String) :
    OpResult HttpResponse :=
  if supportedMethod method then
    let url := urljoin c.base_url path
    let req : HttpRequest :=
      { method := method
        url := url
        headers := c.sessionHeaders
        params := params
        body := data
        jsonBody := none
        verify := c.ssl_verification }
    match T req with
    | .netFail m =>
      { result := .error (.fdp ("Request failed:" ++ m)), client := c, trace := [req] }
    | .response r =>
      if 400 ≤ r.status then
        { result := .error (.fdp ("Request failed:" ++ httpErrorMsg r.status url))
          client := c, trace := [req] }
      else
        { result := .ok r, client := c, trace := [req] }
  else
    { result := .error (.valueError ("Unsupported method " ++ method)), client := c, trace := [] }

/-- Method `FDPClient.get`. -/
def FDPClient.get (c : FDPClient) (T : Transport) (path : String)
    (params : Option (List (String × String))) : OpResult HttpResponse :=
  callMethod c T "GET" path params none

/-- Method `FDPClient.post`. -/
def FDPClient.post (c : FDPClient) (T : Transport) (path : String)
    (params : Option (List (String × String))) (data : Option String) :
    OpResult HttpResponse :=
  callMethod c T "POST" path params data

/-- Method `FDPClient.update` (HTTP PUT). -/
def FDPClient.update (c : FDPClient) (T : Transport) (path : String)
    (params : Option (List (String × String))) (data : Option String) :
    OpResult HttpResponse :=
  callMethod c T "PUT" path params data

/-- Method `FDPClient.delete`. -/
def FDPClient.delete (c : FDPClient) (T : Transport) (path : String)
    (params : Option (List (String × String))) (data : Option String) :
    OpResult HttpResponse :=
  callMethod c T "DELETE" path params data

/-- Method `FDPClient._update_session_headers`:
`self.session.headers.update(self.headers)`. -/
def update_session_headers (c : FDPClient) : FDPClient :=
  { c with sessionHeaders := updateDict c.sessionHeaders c.headers }

/-- Method `FDPClient._change_content_type(content_type)`: assign
`self.headers["Content-Type"] = content_type`, then copy `self.headers` into
the session headers. Both the client's `headers` field and the session
headers are mutated shared state. -/
def change_content_type (c : FDPClient) (content_type : String) : FDPClient :=
  update_session_headers { c with headers := setKey c.headers "Content-Type" content_type }

/-- Method `FDPClient.post_serialised(resource_type, metadata)`: switch the
shared content type to `text/turtle`, then POST the serialized graph to
`f"{self.base_url}/{resource_type}"`. -/
def post_serialised (c : FDPClient) (T : Transport) (resource_type : String)
    (metadata : Graph) : OpResult HttpResponse :=
  let c1 := change_content_type c "text/turtle"
  let path := c1.base_url ++ "/" ++ resource_type
  c1.post T path none (some metadata.serialize)

/-- The body literal `'{"current": "PUBLISHED"}'` of `publish_record`. -/
def publishBody : String := "\x7b\"current\": \"PUBLISHED\"\x7d"

/-- Method `FDPClient.publish_record(record_url)`: switch the shared content
type to `application/json`, then PUT the publish body to
`f"{record_url}/{FDPEndPoints.state}"`. The response object is discarded. -/
def publish_record (c : FDPClient) (T : Transport) (record_url : String) :
    OpResult Unit :=
  let c1 := change_content_type c "application/json"
  let path := record_url ++ "/" ++ FDPEndPoints.state
  let r := c1.update T path none (some publishBody)
  { result := r.result.map (fun _ => ()), client := r.client, trace := r.trace }

/-- The `except (KeyError, FDPClientException)` clause of
`create_and_publish`: both caught exception types are re-raised as
`FDPClientException(f"Failed to create and publish record:{str(e)}")`; any
other exception (only `ValueError` is possible) propagates unchanged. -/
def wrapCreateAndPublish : PyError → PyError
  | .fdp m => .fdp ("Failed to create and publish record:" ++ m)
  | .keyError k => .fdp ("Failed to create and publish record:" ++ pyKeyErrorStr k)
  | .valueError m => .valueError m

/-- Method `FDPClient.create_and_publish(resource_type, metadata)`: create
the record with `post_serialised`, read the new record's URI from the
`Location` response header (`post_response.headers["Location"]`, a `KeyError`
when absent), publish it with `publish_record`, and return the URI. Any
`KeyError` or `FDPClientException` on the way is wrapped by
`wrapCreateAndPublish`. -/
def create_and_publish (c : FDPClient) (T : Transport) (resource_type : String)
    (metadata : Graph) : OpResult String :=
  let r1 := post_serialised c T resource_type metadata
  match r1.result with
  | .error e => { result := .error (wrapCreateAndPublish e), client := r1.client, trace := r1.trace }
  | .ok resp =>
    match getKey resp.headers "Location" with
    | none =>
      { result := .error (wrapCreateAndPublish (.keyError "Location"))
        client := r1.client, trace := r1.trace }
    | some loc =>
      let r2 := publish_record r1.client T loc
      match r2.result with
      | .error e =>
        { result := .error (wrapCreateAndPublish e), client := r2.client
          trace := r1.trace ++ r2.trace }
      | .ok _ =>
        { result := .ok loc, client := r2.client, trace := r1.trace ++ r2.trace }

/-- The request `post_serialised` hands to the transport (the session headers
at that point are those after `_change_content_type("text/turtle")`). -/
def createRequest (c : FDPClient) (resource_type : String) (metadata : Graph) :
    HttpRequest :=
  { method := "POST"
    url := c.base_url ++ "/" ++ resource_type
    headers := (change_content_type c "text/turtle").sessionHeaders
    params := none
    body := some metadata.serialize
    jsonBody := none
    verify := c.ssl_verification }

/-- The request `publish_record` hands to the transport (the session headers
at that point are those after `_change_content_type("application/json")`). -/
def publishRequest (c : FDPClient) (record_url : String) : HttpRequest :=
  { method := "PUT"
    url := record_url ++ "/" ++ FDPEndPoints.state
    headers := (change_content_type c "application/json").sessionHeaders
    params := none
    body := some publishBody
    jsonBody := none
    verify := c.ssl_verification }

/-! ## The bulk publish loop -/

/-- Which exceptions the `except FDPClientException` clause of the notebook's
`for record in datasets` loop catches. -/
def caughtByBulkLoop : PyError → Bool
  | .fdp _ => true
  | _ => false

/-- The notebook's bulk publish loop: for each prepared dataset graph, call
`fdp_client.create_and_publish("dataset", dataset_graph)` inside
`try ... except FDPClientException`, so a caught failure is recorded and the
loop continues with the next record; an uncaught exception would abort the
loop (per-record graph construction, `create_dataset_graph`, is rdflib glue
and happens before the `try`). Returns one outcome per processed record. -/
def bulkPublish (c : FDPClient) (T : Transport) (graphs : List Graph) :
    List (Except PyError String) × FDPClient × List HttpRequest :=
  match graphs with
  | [] => ([], c, [])
  | g :: rest =>
    let r := create_and_publish c T "dataset" g
    match r.result with
    | .error e =>
      if caughtByBulkLoop e then
        let (results, c2, tr2) := bulkPublish r.client T rest
        (.error e :: results, c2, r.trace ++ tr2)
      else ([.error e], r.client, r.trace)
    | .ok l =>
      let (results, c2, tr2) := bulkPublish r.client T rest
      (.ok l :: results, c2, r.trace ++ tr2)

/-! ## Record lifecycle states -/

/-- Modelled from the spec: the per-record protocol states of section 4.3,
`Unsubmitted → Created → Published`. The notebook code does not reify these
states; they are determined by which protocol steps have succeeded. -/
inductive RecordState where
  | unsubmitted
  | created
  | published
  deriving Repr, DecidableEq

/-- Modelled from the spec: the record state reached after the two-step
protocol, as a function of which steps succeeded (a record is `created` once
the create call succeeded, `published` once the publish call also
succeeded). -/
def recordState (createSucceeded publishSucceeded : Bool) : RecordState :=
  if createSucceeded then
    if publishSucceeded then .published else .created
  else .unsubmitted

/-! ## Schema validation (spec-modelled) -/

/-- Modelled from the spec: the schema layer (`DCATCatalog.annotate_model`,
`mandatory_fields`, and pydantic validation in the `sempyro` package) is not
under `src`; only its caller appears in the notebook. Per section 3, a Field
Descriptor carries a relation identifier and a mandatory flag (value kind,
language tag and cardinality are omitted here: validation of mandatory
fields does not consult them). -/
structure FieldDescriptor where
  relation : String
  mandatory : Bool
  deriving Repr, DecidableEq

/-- Modelled from the spec: a Record Schema is an ordered mapping from field
name to Field Descriptor. -/
def RecordSchema := List (String × FieldDescriptor)

/-- Modelled from the spec: `mandatoryFields(schema)`, the names of the
mandatory fields in schema order. -/
def mandatoryFields (s : RecordSchema) : List String :=
  (s.filter (fun p => p.2.mandatory)).map (fun p => p.1)

/-- Lookup of a field's values in a record instance (a mapping from field
name to the list of supplied values). -/
def lookupField (values : List (String × List String)) (f : String) :
    Option (List String) :=
  match values with
  | [] => none
  | p :: rest => if p.1 = f then some p.2 else lookupField rest f

/-- Modelled from the spec: a mandatory field is missing when it is absent
from the instance or has an empty value list (section 3: every mandatory
field must have a non-empty value). -/
def fieldMissing (values : List (String × List String)) (f : String) : Bool :=
  match lookupField values f with
  | none => true
  | some vs => vs.isEmpty

/-- Modelled from the spec: `validate(schema, values)` collects every missing
mandatory field in one pass and fails listing all of them, rather than
failing fast on the first (section 4.1). -/
def validate (s : RecordSchema) (values : List (String × List String)) :
    Except (List String) Unit :=
  let missing := (mandatoryFields s).filter (fun f => fieldMissing values f)
  if missing.isEmpty then .ok () else .error missing

/-- Modelled from the spec: the catalog schema of the scenario in section 8,
with `title` and `description` mandatory (the notebook's first cell prints
exactly `['description', 'title']` as `DCATCatalog`'s mandatory fields). -/
def catalogSchema : RecordSchema :=
  [("title", { relation := "dcterms:title", mandatory := true }),
   ("description", { relation := "dcterms:description", mandatory := true }),
   ("publisher", { relation := "dcterms:publisher", mandatory := false })]

/-! ## Concrete objects for witnesses and counterexamples -/

/-- A sample client as `FDPClient.__init__` builds it for token `"tok"`. -/
def sampleClient : FDPClient :=
  { base_url := "http://fdp.example"
    username := "user"
    password := "pw"
    token := "tok"
    headers := get_headers "tok"
    sessionHeaders := updateDict [] (get_headers "tok")
    ssl_verification := true }

/-- The `sampleClient` with certificate verification turned off. -/
def sampleClientNoSsl : FDPClient :=
  { sampleClient with ssl_verification := false }

/-- A record URI a mock server could hand out in a `Location` header. -/
def scenarioLocation : String := "http://fdp.example/catalog/1"

/-- A 200 response whose JSON body carries a token field. -/
def okResponse : HttpResponse :=
  { status := 200, headers := [], jsonFields := [("token", "tok")], body := "" }

/-- A 201 response carrying the new record URI in its `Location` header. -/
def createdResponse : HttpResponse :=
  { status := 201, headers := [("Location", scenarioLocation)], jsonFields := [], body := "" }

/-- A 500 response. -/
def serverErrorResponse : HttpResponse :=
  { status := 500, headers := [], jsonFields := [], body := "Internal Server Error" }

/-- A terminal 303 response (non-2xx, non-error) whose JSON body carries a
token field. -/
def redirectResponse : HttpResponse :=
  { status := 303, headers := [], jsonFields := [("token", "tok")], body := "" }

/-- A transport that answers every request with `okResponse`. -/
def okTransport : Transport := fun _ => .response okResponse

/-- A transport that answers every request with `redirectResponse`. -/
def redirectTransport : Transport := fun _ => .response redirectResponse

/-- A transport where record creation succeeds (201 with `Location`) and
every other request succeeds with 200. -/
def twoPhaseOkTransport : Transport := fun req =>
  if req.method = "POST" then .response createdResponse else .response okResponse

/-- A transport where record creation succeeds (201 with `Location`) but
every other request, in particular the publish `PUT`, fails with 500. -/
def twoPhaseFailTransport : Transport := fun req =>
  if req.method = "POST" then .response createdResponse else .response serverErrorResponse

/-- A transport answering every request with status 500 and body `"AAA"`. -/
def failBodyATransport : Transport := fun _ =>
  .response { status := 500, headers := [], jsonFields := [], body := "AAA" }

/-- A transport answering every request with status 500 and body `"BBB"`:
identical to `failBodyATransport` except for the response body. -/
def failBodyBTransport : Transport := fun _ =>
  .response { status := 500, headers := [], jsonFields := [], body := "BBB" }

/-- A transport behaving like a host with an untrusted certificate: any
request made with certificate verification on fails at network level, any
request with verification off succeeds. -/
def sslFailTransport : Transport := fun req =>
  if req.verify then .netFail "certificate verify failed" else .response okResponse

/-- First sample dataset graph for the bulk loop. -/
def gA : Graph := { serializedForm := "G1" }

/-- Second sample dataset graph for the bulk loop. -/
def gB : Graph := { serializedForm := "G2" }

/-- A transport for the bulk loop scenario: creating the first dataset
(serialized body `"G1"`) fails with 500, while the second dataset is
created (201 with `Location`) and published (200) normally. -/
def bulkTransport : Transport := fun req =>
  if req.body = some "G1" then .response serverErrorResponse
  else if req.method = "POST" then .response createdResponse
  else .response okResponse

/-- A record instance for `catalogSchema` carrying a title but no
description. -/
def titleOnlyValues : List (String × List String) := [("title", ["Test catalog"])]

/-! ## Dictionary lemmas -/

theorem getKey_eq_none {hs : List (String × String)} {k : String}
    (h : containsKey hs k = false) : getKey hs k = none := by
  induction hs with
  | nil => rfl
  | cons p rest ih =>
    by_cases hk : p.1 = k
    · exfalso; simp [containsKey, hk] at h
    · simp only [containsKey, hk, decide_False, Bool.false_or] at h
      simp [getKey, hk, ih h]

theorem lastValue_eq_none {hs : List (String × String)} {k : String}
    (h : containsKey hs k = false) : lastValue hs k = none := by
  induction hs with
  | nil => rfl
  | cons p rest ih =>
    by_cases hk : p.1 = k
    · exfalso; simp [containsKey, hk] at h
    · simp only [containsKey, hk, decide_False, Bool.false_or] at h
      simp [lastValue, hk, ih h]

theorem getKey_append_left_none {l1 l2 : List (String × String)} {k : String}
    (h : getKey l1 k = none) : getKey (l1 ++ l2) k = getKey l2 k := by
  induction l1 with
  | nil => rfl
  | cons p rest ih =>
    by_cases hk : p.1 = k
    · simp [getKey, hk] at h
    · simp only [getKey, hk, if_false, ite_false] at h ⊢
      simp [getKey, hk, ih h]

theorem getKey_map_replace (hs : List (String × String)) (k v : String)
    (h : containsKey hs k = true) :
    getKey (hs.map (fun p => if p.1 = k then (k, v) else p)) k = some v := by
  induction hs with
  | nil => simp [containsKey] at h
  | cons p rest ih =>
    by_cases hk : p.1 = k
    · simp [getKey, hk]
    · simp only [containsKey, hk, decide_False, Bool.false_or] at h
      simp [getKey, hk, ih h]

theorem getKey_map_replace_other (hs : List (String × String)) (k v k2 : String)
    (hne : k2 ≠ k) :
    getKey (hs.map (fun p => if p.1 = k then (k, v) else p)) k2 = getKey hs k2 := by
  induction hs with
  | nil => rfl
  | cons p rest ih =>
    by_cases hk : p.1 = k
    · have h1 : ¬p.1 = k2 := by rw [hk]; exact fun h => hne h.symm
      have h2 : ¬k = k2 := fun h => hne h.symm
      simp [getKey, hk, h1, h2, ih]
    · by_cases hk2 : p.1 = k2
      · have h3 : ¬k2 = k := hne
        simp [getKey, hk, hk2, h3]
      · simp [getKey, hk, hk2, ih]

theorem getKey_append_single_other (hs : List (String × String)) (k v k2 : String)
    (hne : k2 ≠ k) : getKey (hs ++ [(k, v)]) k2 = getKey hs k2 := by
  induction hs with
  | nil =>
    have h2 : ¬k = k2 := fun h => hne h.symm
    simp [getKey, h2]
  | cons p rest ih =>
    by_cases hk2 : p.1 = k2 <;> simp [getKey, hk2, ih]

theorem getKey_setKey_self (hs : List (String × String)) (k v : String) :
    getKey (setKey hs k v) k = some v := by
  cases hc : containsKey hs k with
  | true => simp [setKey, hc, getKey_map_replace hs k v hc]
  | false =>
    simp only [setKey, hc, Bool.false_eq_true, if_false, ite_false]
    rw [getKey_append_left_none (getKey_eq_none hc)]
    simp [getKey]

theorem getKey_setKey_other (hs : List (String × String)) (k v k2 : String)
    (hne : k2 ≠ k) : getKey (setKey hs k v) k2 = getKey hs k2 := by
  cases hc : containsKey hs k with
  | true => simp [setKey, hc, getKey_map_replace_other hs k v k2 hne]
  | false =>
    simp only [setKey, hc, Bool.false_eq_true, if_false, ite_false]
    exact getKey_append_single_other hs k v k2 hne

theorem lastValue_append (l1 l2 : List (String × String)) (k : String) :
    lastValue (l1 ++ l2) k =
      match lastValue l2 k with
      | some v => some v
      | none => lastValue l1 k := by
  induction l1 with
  | nil =>
    simp only [List.nil_append]
    cases lastValue l2 k <;> rfl
  | cons p rest ih =>
    simp only [List.cons_append, lastValue, List.append_eq, ih]
    cases lastValue l2 k <;> cases lastValue rest k <;> rfl

theorem lastValue_map_none {hs : List (String × String)} {k : String} (v : String)
    (h : containsKey hs k = false) :
    lastValue (hs.map (fun p => if p.1 = k then (k, v) else p)) k = none := by
  induction hs with
  | nil => rfl
  | cons p rest ih =>
    by_cases hk : p.1 = k
    · exfalso; simp [containsKey, hk] at h
    · simp only [containsKey, hk, decide_False, Bool.false_or] at h
      simp [lastValue, hk, ih h]

theorem lastValue_map_replace (hs : List (String × String)) (k v : String)
    (h : containsKey hs k = true) :
    lastValue (hs.map (fun p => if p.1 = k then (k, v) else p)) k = some v := by
  induction hs with
  | nil => simp [containsKey] at h
  | cons p rest ih =>
    cases hcr : containsKey rest k with
    | true => simp only [List.map_cons, lastValue, ih hcr]
    | false =>
      have hk : p.1 = k := by
        simp only [containsKey, Bool.or_eq_true, decide_eq_true_eq, hcr,
          Bool.false_eq_true, or_false] at h
        exact h
      simp only [List.map_cons, lastValue, lastValue_map_none v hcr, hk]
      simp

theorem lastValue_map_replace_other (hs : List (String × String)) (k v k2 : String)
    (hne : k2 ≠ k) :
    lastValue (hs.map (fun p => if p.1 = k then (k, v) else p)) k2 = lastValue hs k2 := by
  induction hs with
  | nil => rfl
  | cons p rest ih =>
    by_cases hk : p.1 = k
    · have h1 : ¬p.1 = k2 := by rw [hk]; exact fun h => hne h.symm
      have h2 : ¬k = k2 := fun h => hne h.symm
      simp [lastValue, hk, h1, h2, ih]
    · simp [lastValue, hk, ih]

theorem lastValue_setKey_self (hs : List (String × String)) (k v : String) :
    lastValue (setKey hs k v) k = some v := by
  cases hc : containsKey hs k with
  | true => simp [setKey, hc, lastValue_map_replace hs k v hc]
  | false =>
    simp only [setKey, hc, Bool.false_eq_true, if_false, ite_false, lastValue_append]
    simp [lastValue]

theorem lastValue_setKey_other (hs : List (String × String)) (k v k2 : String)
    (hne : k2 ≠ k) : lastValue (setKey hs k v) k2 = lastValue hs k2 := by
  cases hc : containsKey hs k with
  | true => simp [setKey, hc, lastValue_map_replace_other hs k v k2 hne]
  | false =>
    simp only [setKey, hc, Bool.false_eq_true, if_false, ite_false, lastValue_append]
    have h2 : ¬k = k2 := fun h => hne h.symm
    simp [lastValue, h2]

theorem getKey_updateDict (base upd : List (String × String)) (k : String) :
    getKey (updateDict base upd) k =
      match lastValue upd k with
      | some v => some v
      | none => getKey base k := by
  induction upd generalizing base with
  | nil => cases h : lastValue ([] : List (String × String)) k <;> simp_all [lastValue, updateDict]
  | cons p rest ih =>
    have hstep : updateDict base (p :: rest) = updateDict (setKey base p.1 p.2) rest := rfl
    rw [hstep, ih]
    cases hr : lastValue rest k with
    | some v => simp [lastValue, hr]
    | none =>
      simp only [lastValue, hr]
      by_cases hk : p.1 = k
      · subst hk
        simp [getKey_setKey_self]
      · have h2 : k ≠ p.1 := fun h => hk h.symm
        simp [hk, getKey_setKey_other base p.1 p.2 k h2]

/-! ## Client state lemmas -/

@[simp] theorem change_content_type_base_url (c : FDPClient) (ct : String) :
    (change_content_type c ct).base_url = c.base_url := rfl

@[simp] theorem change_content_type_ssl_verification (c : FDPClient) (ct : String) :
    (change_content_type c ct).ssl_verification = c.ssl_verification := rfl

theorem change_content_type_headers (c : FDPClient) (ct : String) :
    (change_content_type c ct).headers = setKey c.headers "Content-Type" ct := rfl

theorem change_content_type_sessionHeaders (c : FDPClient) (ct : String) :
    (change_content_type c ct).sessionHeaders =
      updateDict c.sessionHeaders (setKey c.headers "Content-Type" ct) := rfl

theorem getKey_headers_change_content_type (c : FDPClient) (ct : String) :
    getKey (change_content_type c ct).headers "Content-Type" = some ct := by
  rw [change_content_type_headers]
  exact getKey_setKey_self c.headers "Content-Type" ct

theorem getKey_sessionHeaders_change_content_type (c : FDPClient) (ct : String) :
    getKey (change_content_type c ct).sessionHeaders "Content-Type" = some ct := by
  rw [change_content_type_sessionHeaders, getKey_updateDict,
    lastValue_setKey_self c.headers "Content-Type" ct]

theorem getKey_sessionHeaders_change_content_type_other (c : FDPClient) (ct k : String)
    (h : k ≠ "Content-Type") :
    getKey (change_content_type c ct).sessionHeaders k =
      match lastValue c.headers k with
      | some v => some v
      | none => getKey c.sessionHeaders k := by
  rw [change_content_type_sessionHeaders, getKey_updateDict,
    lastValue_setKey_other c.headers "Content-Type" ct k h]

theorem lastValue_headers_change_content_type_other (c : FDPClient) (ct k : String)
    (h : k ≠ "Content-Type") :
    lastValue (change_content_type c ct).headers k = lastValue c.headers k := by
  rw [change_content_type_headers]
  exact lastValue_setKey_other c.headers "Content-Type" ct k h

/-! ## URL lemmas -/

theorem isAbsoluteUrl_append (s t : String) (h : isAbsoluteUrl s = true) :
    isAbsoluteUrl (s ++ t) = true := by
  simp only [isAbsoluteUrl, Bool.or_eq_true, List.isPrefixOf_iff_prefix,
    String.data_append] at h ⊢
  rcases h with h | h
  · exact Or.inl (h.trans (List.prefix_append s.data t.data))
  · exact Or.inr (h.trans (List.prefix_append s.data t.data))

theorem urljoin_absolute (base url : String) (h : isAbsoluteUrl url = true) :
    urljoin base url = url := by
  simp [urljoin, h]

theorem FDPEndPoints.state_eq : FDPEndPoints.state = "meta/state" := rfl

/-! ## Operation characterization lemmas -/

theorem post_serialised_client (c : FDPClient) (T : Transport) (rt : String) (g : Graph) :
    (post_serialised c T rt g).client = change_content_type c "text/turtle" := by
  have hm : supportedMethod "POST" = true := by decide
  simp only [post_serialised, FDPClient.post, callMethod, hm, if_true, ite_true]
  cases T _ with
  | netFail m => rfl
  | response r =>
    by_cases hs : 400 ≤ r.status <;> simp [hs]

theorem post_serialised_trace (c : FDPClient) (T : Transport) (rt : String) (g : Graph)
    (hp : isAbsoluteUrl c.base_url = true) :
    (post_serialised c T rt g).trace = [createRequest c rt g] := by
  have hm : supportedMethod "POST" = true := by decide
  have habs : isAbsoluteUrl (c.base_url ++ "/" ++ rt) = true :=
    isAbsoluteUrl_append _ _ (isAbsoluteUrl_append _ _ hp)
  simp only [post_serialised, FDPClient.post, callMethod, hm, if_true, ite_true,
    change_content_type_base_url, urljoin_absolute _ _ habs]
  cases T _ with
  | netFail m => rfl
  | response r =>
    by_cases hs : 400 ≤ r.status <;> simp [hs, createRequest]

theorem post_serialised_result_response (c : FDPClient) (T : Transport) (rt : String)
    (g : Graph) (r : HttpResponse) (hp : isAbsoluteUrl c.base_url = true)
    (hT : T (createRequest c rt g) = .response r) :
    (post_serialised c T rt g).result =
      if 400 ≤ r.status then
        .error (.fdp ("Request failed:" ++ httpErrorMsg r.status (c.base_url ++ "/" ++ rt)))
      else .ok r := by
  have hm : supportedMethod "POST" = true := by decide
  have habs : isAbsoluteUrl (c.base_url ++ "/" ++ rt) = true :=
    isAbsoluteUrl_append _ _ (isAbsoluteUrl_append _ _ hp)
  simp only [createRequest] at hT
  simp only [post_serialised, FDPClient.post, callMethod, hm, if_true, ite_true,
    change_content_type_base_url, change_content_type_ssl_verification,
    urljoin_absolute _ _ habs, hT]
  by_cases hs : 400 ≤ r.status <;> simp [hs]

theorem post_serialised_result_netFail (c : FDPClient) (T : Transport) (rt : String)
    (g : Graph) (m : String) (hp : isAbsoluteUrl c.base_url = true)
    (hT : T (createRequest c rt g) = .netFail m) :
    (post_serialised c T rt g).result = .error (.fdp ("Request failed:" ++ m)) := by
  have hm : supportedMethod "POST" = true := by decide
  have habs : isAbsoluteUrl (c.base_url ++ "/" ++ rt) = true :=
    isAbsoluteUrl_append _ _ (isAbsoluteUrl_append _ _ hp)
  simp only [createRequest] at hT
  simp only [post_serialised, FDPClient.post, callMethod, hm, if_true, ite_true,
    change_content_type_base_url, change_content_type_ssl_verification,
    urljoin_absolute _ _ habs, hT]

theorem publish_record_client (c : FDPClient) (T : Transport) (url : String) :
    (publish_record c T url).client = change_content_type c "application/json" := by
  have hm : supportedMethod "PUT" = true := by decide
  simp only [publish_record, FDPClient.update, callMethod, hm, if_true, ite_true]
  cases T _ with
  | netFail m => rfl
  | response r =>
    by_cases hs : 400 ≤ r.status <;> simp [hs]

theorem publish_record_trace (c : FDPClient) (T : Transport) (url : String)
    (hp : isAbsoluteUrl url = true) :
    (publish_record c T url).trace = [publishRequest c url] := by
  have hm : supportedMethod "PUT" = true := by decide
  have habs : isAbsoluteUrl (url ++ "/" ++ FDPEndPoints.state) = true :=
    isAbsoluteUrl_append _ _ (isAbsoluteUrl_append _ _ hp)
  simp only [publish_record, FDPClient.update, callMethod, hm, if_true, ite_true,
    change_content_type_base_url, urljoin_absolute _ _ habs]
  cases T _ with
  | netFail m => rfl
  | response r =>
    by_cases hs : 400 ≤ r.status <;> simp [hs, publishRequest]

theorem publish_record_result_response (c : FDPClient) (T : Transport) (url : String)
    (r : HttpResponse) (hp : isAbsoluteUrl url = true)
    (hT : T (publishRequest c url) = .response r) :
    (publish_record c T url).result =
      if 400 ≤ r.status then
        .error (.fdp ("Request failed:" ++
          httpErrorMsg r.status (url ++ "/" ++ FDPEndPoints.state)))
      else .ok () := by
  have hm : supportedMethod "PUT" = true := by decide
  have habs : isAbsoluteUrl (url ++ "/" ++ FDPEndPoints.state) = true :=
    isAbsoluteUrl_append _ _ (isAbsoluteUrl_append _ _ hp)
  simp only [publishRequest] at hT
  simp only [publish_record, FDPClient.update, callMethod, hm, if_true, ite_true,
    change_content_type_base_url, change_content_type_ssl_verification,
    urljoin_absolute _ _ habs, hT]
  by_cases hs : 400 ≤ r.status <;> simp [hs, Except.map]

theorem publish_record_result_netFail (c : FDPClient) (T : Transport) (url : String)
    (m : String) (hp : isAbsoluteUrl url = true)
    (hT : T (publishRequest c url) = .netFail m) :
    (publish_record c T url).result = .error (.fdp ("Request failed:" ++ m)) := by
  have hm : supportedMethod "PUT" = true := by decide
  have habs : isAbsoluteUrl (url ++ "/" ++ FDPEndPoints.state) = true :=
    isAbsoluteUrl_append _ _ (isAbsoluteUrl_append _ _ hp)
  simp only [publishRequest] at hT
  simp only [publish_record, FDPClient.update, callMethod, hm, if_true, ite_true,
    change_content_type_base_url, change_content_type_ssl_verification,
    urljoin_absolute _ _ habs, hT]
  rfl

/-! ## Construction lemmas -/

theorem loginRequest_url (b u p : String) : (loginRequest b u p).url = b ++ "/tokens" := rfl

theorem login_fdp_trace (T : Transport) (b u p : String) :
    (login_fdp T b u p).2 = [loginRequest b u p] := by
  simp only [login_fdp]
  cases T (loginRequest b u p) with
  | netFail m => rfl
  | response r =>
    by_cases hs : 400 ≤ r.status
    · simp [hs]
    · simp only [hs, if_false, ite_false]
      cases getKey r.jsonFields "token" <;> rfl

theorem FDPClient.init_trace (T : Transport) (b u p : String) (v : Bool) :
    (FDPClient.init T b u p v).2 = [loginRequest b u p] := by
  have h := login_fdp_trace T b u p
  rcases hE : login_fdp T b u p with ⟨res, tr⟩
  rw [hE] at h
  simp only at h
  cases res <;> simp [FDPClient.init, hE, h]

theorem FDPClient.init_ok (T : Transport) (b u p : String) (v : Bool)
    (r : HttpResponse) (tok : String)
    (hT : T (loginRequest b u p) = .response r) (hs : r.status < 400)
    (htok : getKey r.jsonFields "token" = some tok) :
    (FDPClient.init T b u p v).1 = .ok
      { base_url := b, username := u, password := p, token := tok,
        headers := get_headers tok,
        sessionHeaders := updateDict [] (get_headers tok),
        ssl_verification := v } := by
  have hns : ¬400 ≤ r.status := Nat.not_le.mpr hs
  simp [FDPClient.init, login_fdp, hT, hns, htok]

theorem FDPClient.init_netFail (T : Transport) (b u p : String) (v : Bool) (m : String)
    (hT : T (loginRequest b u p) = .netFail m) :
    (FDPClient.init T b u p v).1 = .error (.fdp ("Login failed: " ++ m)) := by
  simp [FDPClient.init, login_fdp, hT]

theorem FDPClient.init_httpError (T : Transport) (b u p : String) (v : Bool)
    (r : HttpResponse) (hT : T (loginRequest b u p) = .response r)
    (hs : 400 ≤ r.status) :
    (FDPClient.init T b u p v).1 =
      .error (.fdp ("Login failed: " ++ httpErrorMsg r.status (b ++ "/tokens"))) := by
  simp [FDPClient.init, login_fdp, hT, hs, loginRequest_url]

theorem sessionHeaders_of_get_headers (tok : String) :
    updateDict [] (get_headers tok) = get_headers tok := rfl

/-! ## Error normalization lemmas -/

theorem callMethod_error_is_fdp (c : FDPClient) (T : Transport) (method path : String)
    (params : Option (List (String × String))) (data : Option String) (e : PyError)
    (hm : supportedMethod method = true)
    (h : (callMethod c T method path params data).result = .error e) :
    ∃ m, e = .fdp m := by
  simp only [callMethod, hm, if_true, ite_true] at h
  split at h
  · exact ⟨_, (by simpa using h.symm :)⟩
  · split at h
    · exact ⟨_, (by simpa using h.symm :)⟩
    · simp at h

theorem post_serialised_error_is_fdp (c : FDPClient) (T : Transport) (rt : String)
    (g : Graph) (e : PyError)
    (h : (post_serialised c T rt g).result = .error e) : ∃ m, e = .fdp m := by
  have hm : supportedMethod "POST" = true := by decide
  exact callMethod_error_is_fdp _ T "POST" _ none _ e hm h

theorem publish_record_error_is_fdp (c : FDPClient) (T : Transport) (url : String)
    (e : PyError) (h : (publish_record c T url).result = .error e) : ∃ m, e = .fdp m := by
  have hm : supportedMethod "PUT" = true := by decide
  simp only [publish_record] at h
  cases hr : (FDPClient.update (change_content_type c "application/json") T
      (url ++ "/" ++ FDPEndPoints.state) none (some publishBody)).result with
  | ok r => rw [hr] at h; simp [Except.map] at h
  | error e2 =>
    rw [hr] at h
    simp only [Except.map] at h
    cases h
    exact callMethod_error_is_fdp _ T "PUT" _ none _ _ hm hr

theorem wrapCreateAndPublish_fdp (m : String) :
    wrapCreateAndPublish (.fdp m) = .fdp ("Failed to create and publish record:" ++ m) := rfl

theorem create_and_publish_error_is_fdp (c : FDPClient) (T : Transport) (rt : String)
    (g : Graph) (e : PyError)
    (h : (create_and_publish c T rt g).result = .error e) : ∃ m, e = .fdp m := by
  simp only [create_and_publish] at h
  cases hr1 : (post_serialised c T rt g).result with
  | error e1 =>
    rw [hr1] at h
    simp only at h
    cases h
    obtain ⟨m, rfl⟩ := post_serialised_error_is_fdp c T rt g e1 hr1
    exact ⟨_, rfl⟩
  | ok resp =>
    rw [hr1] at h
    simp only at h
    cases hL : getKey resp.headers "Location" with
    | none => rw [hL] at h; simp only at h; cases h; exact ⟨_, rfl⟩
    | some loc =>
      rw [hL] at h
      simp only at h
      cases hr2 : (publish_record (post_serialised c T rt g).client T loc).result with
      | error e2 =>
        rw [hr2] at h
        simp only at h
        cases h
        obtain ⟨m, rfl⟩ := publish_record_error_is_fdp _ T loc e2 hr2
        exact ⟨_, rfl⟩
      | ok _ => rw [hr2] at h; simp at h

/-! ## create_and_publish scenario lemmas -/

theorem create_and_publish_ok (c : FDPClient) (T : Transport) (rt : String) (g : Graph)
    (r1 : HttpResponse) (loc : String) (r2 : HttpResponse)
    (hp : isAbsoluteUrl c.base_url = true)
    (hT1 : T (createRequest c rt g) = .response r1) (hs1 : r1.status < 400)
    (hloc : getKey r1.headers "Location" = some loc)
    (hpl : isAbsoluteUrl loc = true)
    (hT2 : T (publishRequest (change_content_type c "text/turtle") loc) = .response r2)
    (hs2 : r2.status < 400) :
    (create_and_publish c T rt g).result = .ok loc ∧
      (create_and_publish c T rt g).trace =
        [createRequest c rt g,
         publishRequest (change_content_type c "text/turtle") loc] := by
  have h1 := post_serialised_result_response c T rt g r1 hp hT1
  rw [if_neg (Nat.not_le.mpr hs1)] at h1
  have h2 := publish_record_result_response (change_content_type c "text/turtle") T loc r2
    hpl hT2
  rw [if_neg (Nat.not_le.mpr hs2)] at h2
  constructor
  · simp [create_and_publish, h1, hloc, post_serialised_client, h2]
  · simp [create_and_publish, h1, hloc, post_serialised_client, h2,
      post_serialised_trace c T rt g hp,
      publish_record_trace (change_content_type c "text/turtle") T loc hpl]

theorem create_and_publish_publish_httpError (c : FDPClient) (T : Transport) (rt : String)
    (g : Graph) (r1 : HttpResponse) (loc : String) (r2 : HttpResponse)
    (hp : isAbsoluteUrl c.base_url = true)
    (hT1 : T (createRequest c rt g) = .response r1) (hs1 : r1.status < 400)
    (hloc : getKey r1.headers "Location" = some loc)
    (hpl : isAbsoluteUrl loc = true)
    (hT2 : T (publishRequest (change_content_type c "text/turtle") loc) = .response r2)
    (hs2 : 400 ≤ r2.status) :
    (create_and_publish c T rt g).result =
      .error (.fdp ("Failed to create and publish record:" ++ ("Request failed:" ++
        httpErrorMsg r2.status (loc ++ "/" ++ FDPEndPoints.state)))) ∧
      (create_and_publish c T rt g).trace =
        [createRequest c rt g,
         publishRequest (change_content_type c "text/turtle") loc] := by
  have h1 := post_serialised_result_response c T rt g r1 hp hT1
  rw [if_neg (Nat.not_le.mpr hs1)] at h1
  have h2 := publish_record_result_response (change_content_type c "text/turtle") T loc r2
    hpl hT2
  rw [if_pos hs2] at h2
  constructor
  · simp [create_and_publish, h1, hloc, post_serialised_client, h2, wrapCreateAndPublish]
  · simp [create_and_publish, h1, hloc, post_serialised_client, h2,
      post_serialised_trace c T rt g hp,
      publish_record_trace (change_content_type c "text/turtle") T loc hpl]

theorem create_and_publish_publish_netFail (c : FDPClient) (T : Transport) (rt : String)
    (g : Graph) (r1 : HttpResponse) (loc : String) (m : String)
    (hp : isAbsoluteUrl c.base_url = true)
    (hT1 : T (createRequest c rt g) = .response r1) (hs1 : r1.status < 400)
    (hloc : getKey r1.headers "Location" = some loc)
    (hpl : isAbsoluteUrl loc = true)
    (hT2 : T (publishRequest (change_content_type c "text/turtle") loc) = .netFail m) :
    (create_and_publish c T rt g).result =
      .error (.fdp ("Failed to create and publish record:" ++ ("Request failed:" ++ m))) := by
  have h1 := post_serialised_result_response c T rt g r1 hp hT1
  rw [if_neg (Nat.not_le.mpr hs1)] at h1
  have h2 := publish_record_result_netFail (change_content_type c "text/turtle") T loc m
    hpl hT2
  simp [create_and_publish, h1, hloc, post_serialised_client, h2, wrapCreateAndPublish]

theorem create_and_publish_noLocation (c : FDPClient) (T : Transport) (rt : String)
    (g : Graph) (r1 : HttpResponse)
    (hp : isAbsoluteUrl c.base_url = true)
    (hT1 : T (createRequest c rt g) = .response r1) (hs1 : r1.status < 400)
    (hloc : getKey r1.headers "Location" = none) :
    (create_and_publish c T rt g).result =
      .error (.fdp ("Failed to create and publish record:" ++ pyKeyErrorStr "Location")) ∧
      (create_and_publish c T rt g).trace = [createRequest c rt g] := by
  have h1 := post_serialised_result_response c T rt g r1 hp hT1
  rw [if_neg (Nat.not_le.mpr hs1)] at h1
  constructor
  · simp [create_and_publish, h1, hloc, wrapCreateAndPublish]
  · simp [create_and_publish, h1, hloc, post_serialised_trace c T rt g hp]

theorem create_and_publish_ok_location (c : FDPClient) (T : Transport) (rt : String)
    (g : Graph) (u : String) (hp : isAbsoluteUrl c.base_url = true)
    (h : (create_and_publish c T rt g).result = .ok u) :
    ∃ r1, T (createRequest c rt g) = .response r1 ∧ r1.status < 400 ∧
      getKey r1.headers "Location" = some u := by
  cases hO : T (createRequest c rt g) with
  | netFail m =>
    have h1 := post_serialised_result_netFail c T rt g m hp hO
    simp [create_and_publish, h1] at h
  | response r1 =>
    have h1 := post_serialised_result_response c T rt g r1 hp hO
    by_cases hs1 : 400 ≤ r1.status
    · rw [if_pos hs1] at h1
      simp [create_and_publish, h1] at h
    · rw [if_neg hs1] at h1
      refine ⟨r1, rfl, Nat.not_le.mp hs1, ?_⟩
      cases hL : getKey r1.headers "Location" with
      | none => simp [create_and_publish, h1, hL] at h
      | some loc =>
        cases hr2 : (publish_record (post_serialised c T rt g).client T loc).result with
        | error e2 => simp [create_and_publish, h1, hL, hr2] at h
        | ok x =>
          have : (create_and_publish c T rt g).result = .ok loc := by
            simp [create_and_publish, h1, hL, hr2]
          rw [this] at h
          simp only [Except.ok.injEq] at h
          rw [h]

theorem create_and_publish_ok_publish (c : FDPClient) (T : Transport) (rt : String)
    (g : Graph) (u loc : String) (r1 : HttpResponse)
    (hp : isAbsoluteUrl c.base_url = true)
    (hT1 : T (createRequest c rt g) = .response r1) (hs1 : r1.status < 400)
    (hloc : getKey r1.headers "Location" = some loc)
    (hpl : isAbsoluteUrl loc = true)
    (h : (create_and_publish c T rt g).result = .ok u) :
    u = loc ∧ ∃ r2,
      T (publishRequest (change_content_type c "text/turtle") loc) = .response r2 ∧
        r2.status < 400 := by
  have h1 := post_serialised_result_response c T rt g r1 hp hT1
  rw [if_neg (Nat.not_le.mpr hs1)] at h1
  cases hO2 : T (publishRequest (change_content_type c "text/turtle") loc) with
  | netFail m =>
    have h2 := publish_record_result_netFail (change_content_type c "text/turtle") T loc m
      hpl hO2
    simp [create_and_publish, h1, hloc, post_serialised_client, h2] at h
  | response r2 =>
    have h2 := publish_record_result_response (change_content_type c "text/turtle") T loc r2
      hpl hO2
    by_cases hs2 : 400 ≤ r2.status
    · rw [if_pos hs2] at h2
      simp [create_and_publish, h1, hloc, post_serialised_client, h2] at h
    · rw [if_neg hs2] at h2
      have hok : (create_and_publish c T rt g).result = .ok loc := by
        simp [create_and_publish, h1, hloc, post_serialised_client, h2]
      rw [hok] at h
      simp only [Except.ok.injEq] at h
      exact ⟨h.symm, r2, rfl, Nat.not_le.mp hs2⟩

/-! ## Bulk publish lemmas -/

theorem bulkPublish_cons_error (c : FDPClient) (T : Transport) (g : Graph)
    (rest : List Graph) (e : PyError)
    (h : (create_and_publish c T "dataset" g).result = .error e) :
    (bulkPublish c T (g :: rest)).1 =
      .error e :: (bulkPublish (create_and_publish c T "dataset" g).client T rest).1 := by
  obtain ⟨m, rfl⟩ := create_and_publish_error_is_fdp c T "dataset" g e h
  rcases hE : bulkPublish (create_and_publish c T "dataset" g).client T rest
    with ⟨results, c2, tr2⟩
  simp [bulkPublish, h, hE, caughtByBulkLoop]

theorem bulkPublish_cons_ok (c : FDPClient) (T : Transport) (g : Graph)
    (rest : List Graph) (l : String)
    (h : (create_and_publish c T "dataset" g).result = .ok l) :
    (bulkPublish c T (g :: rest)).1 =
      .ok l :: (bulkPublish (create_and_publish c T "dataset" g).client T rest).1 := by
  rcases hE : bulkPublish (create_and_publish c T "dataset" g).client T rest
    with ⟨results, c2, tr2⟩
  simp [bulkPublish, h, hE]

theorem bulkPublish_length (c : FDPClient) (T : Transport) (graphs : List Graph) :
    (bulkPublish c T graphs).1.length = graphs.length := by
  induction graphs generalizing c with
  | nil => rfl
  | cons g rest ih =>
    cases hr : (create_and_publish c T "dataset" g).result with
    | error e =>
      rw [bulkPublish_cons_error c T g rest e hr]
      simp [ih]
    | ok l =>
      rw [bulkPublish_cons_ok c T g rest l hr]
      simp [ih]

/-! ## Trace shape lemmas -/

theorem callMethod_trace_headers (c : FDPClient) (T : Transport) (method path : String)
    (params : Option (List (String × String))) (data : Option String) :
    ∀ req ∈ (callMethod c T method path params data).trace,
      req.headers = c.sessionHeaders := by
  intro req hreq
  by_cases hm : supportedMethod method
  · simp only [callMethod, hm, if_true, ite_true] at hreq
    split at hreq
    · simp only [List.mem_singleton] at hreq
      subst hreq
      rfl
    · split at hreq <;>
        (simp only [List.mem_singleton] at hreq; subst hreq; rfl)
  · simp only [callMethod, hm, if_false, ite_false] at hreq
    simp at hreq

theorem callMethod_trace_verify (c : FDPClient) (T : Transport) (method path : String)
    (params : Option (List (String × String))) (data : Option String) :
    ∀ req ∈ (callMethod c T method path params data).trace,
      req.verify = c.ssl_verification := by
  intro req hreq
  by_cases hm : supportedMethod method
  · simp only [callMethod, hm, if_true, ite_true] at hreq
    split at hreq
    · simp only [List.mem_singleton] at hreq
      subst hreq
      rfl
    · split at hreq <;>
        (simp only [List.mem_singleton] at hreq; subst hreq; rfl)
  · simp only [callMethod, hm, if_false, ite_false] at hreq
    simp at hreq

theorem getKey_auth_after_change (tok ct : String) (c : FDPClient)
    (hh : c.headers = get_headers tok) :
    getKey (change_content_type c ct).sessionHeaders "Authorization" =
      some ("Bearer " ++ tok) := by
  rw [getKey_sessionHeaders_change_content_type_other c ct "Authorization" (by decide), hh]
  rfl

/-! ## Claim theorems -/

/-- C1: for every record URI and every client instance, `publish_record`
issues exactly one state-update request: a `PUT` to the path formed by
appending `meta/state` (after a slash) to the record URI, whose body is
exactly the publish body string (`current` mapped to `PUBLISHED`, with a
space after the colon) and whose `Content-Type` header is
`application/json`, distinct from the `text/turtle` graph media type that
`post_serialised` uses for creation. -/
theorem C1_publish_request_exact (c : FDPClient) (T : Transport) (record_url : String)
    (hp : isAbsoluteUrl record_url = true) :
    (publish_record c T record_url).trace = [publishRequest c record_url] ∧
    (publishRequest c record_url).method = "PUT" ∧
    (publishRequest c record_url).url = record_url ++ "/" ++ FDPEndPoints.state ∧
    FDPEndPoints.state = "meta/state" ∧
    (publishRequest c record_url).body = some publishBody ∧
    publishBody = "\x7b\"current\": \"PUBLISHED\"\x7d" ∧
    getKey (publishRequest c record_url).headers "Content-Type" = some "application/json" ∧
    (∀ rt g, getKey (createRequest c rt g).headers "Content-Type" = some "text/turtle") ∧
    ("application/json" : String) ≠ "text/turtle" := by
  refine ⟨publish_record_trace c T record_url hp, rfl, rfl, rfl, rfl, rfl, ?_, ?_, by decide⟩
  · exact getKey_sessionHeaders_change_content_type c "application/json"
  · intro rt g
    exact getKey_sessionHeaders_change_content_type c "text/turtle"

/-- Witness for C1 at a concrete client, transport and record URI. -/
theorem C1_publish_request_exact_witness :
    isAbsoluteUrl "http://fdp.example/rec" = true ∧
    (publish_record sampleClient okTransport "http://fdp.example/rec").trace =
      [publishRequest sampleClient "http://fdp.example/rec"] ∧
    (publishRequest sampleClient "http://fdp.example/rec").method = "PUT" ∧
    (publishRequest sampleClient "http://fdp.example/rec").url =
      "http://fdp.example/rec" ++ "/" ++ FDPEndPoints.state ∧
    (publishRequest sampleClient "http://fdp.example/rec").body = some publishBody ∧
    getKey (publishRequest sampleClient "http://fdp.example/rec").headers "Content-Type" =
      some "application/json" ∧
    getKey (createRequest sampleClient "catalog" gA).headers "Content-Type" =
      some "text/turtle" := by
  have H := C1_publish_request_exact sampleClient okTransport "http://fdp.example/rec"
    (by decide)
  exact ⟨by decide, H.1, H.2.1, H.2.2.1, H.2.2.2.2.1, H.2.2.2.2.2.2.1,
    H.2.2.2.2.2.2.2.1 "catalog" gA⟩

/-- C2: for every create request answered with a 2xx response, the identity
`create_and_publish` can return is exactly the value of the response's
`Location` header; and when a 2xx create response lacks the `Location`
header, the client raises its client-level error (`FDPClientException`,
wrapping the `KeyError`), never a fabricated identity. -/
theorem C2_create_identity_from_location (c : FDPClient) (T : Transport) (rt : String)
    (g : Graph) (r : HttpResponse)
    (hp : isAbsoluteUrl c.base_url = true)
    (hT : T (createRequest c rt g) = .response r)
    (hlo : 200 ≤ r.status) (hhi : r.status < 300) :
    (∀ u, (create_and_publish c T rt g).result = .ok u →
      getKey r.headers "Location" = some u) ∧
    (getKey r.headers "Location" = none →
      (create_and_publish c T rt g).result =
        .error (.fdp ("Failed to create and publish record:" ++ pyKeyErrorStr "Location"))) := by
  have hs1 : r.status < 400 := lt_of_lt_of_le hhi (by norm_num)
  constructor
  · intro u hu
    obtain ⟨r1, hr1, _, hL⟩ := create_and_publish_ok_location c T rt g u hp hu
    rw [hT] at hr1
    injection hr1 with h12
    rw [h12]
    exact hL
  · intro hLnone
    exact (create_and_publish_noLocation c T rt g r hp hT hs1 hLnone).1

/-- Witness for C2: a mocked create response carrying a Location header. -/
theorem C2_create_identity_from_location_witness :
    twoPhaseOkTransport (createRequest sampleClient "catalog" gA) =
      .response createdResponse ∧
    (create_and_publish sampleClient twoPhaseOkTransport "catalog" gA).result =
      .ok scenarioLocation ∧
    getKey createdResponse.headers "Location" = some scenarioLocation := by
  have H := C2_create_identity_from_location sampleClient twoPhaseOkTransport "catalog" gA
    createdResponse (by decide) rfl (by decide) (by decide)
  exact ⟨rfl, rfl, H.1 scenarioLocation rfl⟩

/-- C3 counterexample: the claim that construction fails on any non-2xx
login response is false on the code. `raise_for_status` raises only for
4xx/5xx, so a terminal 303 login response (non-2xx) whose JSON body carries
a token field makes `__init__` store the token, create the session and
succeed. -/
theorem C3_non2xx_login_succeeds_cex :
    redirectResponse.status = 303 ∧
    ¬(200 ≤ redirectResponse.status ∧ redirectResponse.status < 300) ∧
    redirectTransport (loginRequest "http://fdp.example" "user" "pw") =
      .response redirectResponse ∧
    (FDPClient.init redirectTransport "http://fdp.example" "user" "pw" true).1 =
      .ok sampleClient :=
  ⟨rfl, by decide, rfl, rfl⟩

/-- C3 amended: client construction sends exactly one authentication
request, a `POST` to the base URL extended with `/tokens` whose JSON body
carries the email and password; on any response with a non-error status
(below 400 — `raise_for_status` raises only on 4xx/5xx, so in particular on
every 2xx response) the token field of the body is stored and
`Authorization: Bearer token` is attached to every subsequent request
(through the session headers, also after content-type switches); on an HTTP
error status (400 or above) or a network failure, construction raises
`FDPClientException` and no client value is produced. -/
theorem C3_construction_auth (T : Transport) (b u p tok : String) (v : Bool)
    (r : HttpResponse) :
    (FDPClient.init T b u p v).2 = [loginRequest b u p] ∧
    (loginRequest b u p).method = "POST" ∧
    (loginRequest b u p).url = b ++ "/tokens" ∧
    (loginRequest b u p).jsonBody = some [("email", u), ("password", p)] ∧
    (T (loginRequest b u p) = .response r → r.status < 400 →
      getKey r.jsonFields "token" = some tok →
      (FDPClient.init T b u p v).1 = .ok
        { base_url := b, username := u, password := p, token := tok,
          headers := get_headers tok, sessionHeaders := get_headers tok,
          ssl_verification := v }) ∧
    (∀ c : FDPClient, c.headers = get_headers tok → c.sessionHeaders = get_headers tok →
      ∀ T2 : Transport,
        (∀ path params data method, ∀ req ∈ (callMethod c T2 method path params data).trace,
          getKey req.headers "Authorization" = some ("Bearer " ++ tok)) ∧
        (∀ rt g, ∀ req ∈ (post_serialised c T2 rt g).trace,
          getKey req.headers "Authorization" = some ("Bearer " ++ tok)) ∧
        (∀ url2, ∀ req ∈ (publish_record c T2 url2).trace,
          getKey req.headers "Authorization" = some ("Bearer " ++ tok))) ∧
    (∀ m, T (loginRequest b u p) = .netFail m →
      (FDPClient.init T b u p v).1 = .error (.fdp ("Login failed: " ++ m))) ∧
    (T (loginRequest b u p) = .response r → 400 ≤ r.status →
      (FDPClient.init T b u p v).1 =
        .error (.fdp ("Login failed: " ++ httpErrorMsg r.status (b ++ "/tokens")))) := by
  refine ⟨FDPClient.init_trace T b u p v, rfl, rfl, rfl, ?_, ?_, ?_, ?_⟩
  · intro hT h400 htok
    exact FDPClient.init_ok T b u p v r tok hT h400 htok
  · intro c hh hsess T2
    refine ⟨?_, ?_, ?_⟩
    · intro path params data method req hreq
      rw [callMethod_trace_headers c T2 method path params data req hreq, hsess]
      rfl
    · intro rt g req hreq
      rw [callMethod_trace_headers (change_content_type c "text/turtle") T2 "POST"
        ((change_content_type c "text/turtle").base_url ++ "/" ++ rt) none
        (some g.serialize) req hreq]
      exact getKey_auth_after_change tok "text/turtle" c hh
    · intro url2 req hreq
      rw [callMethod_trace_headers (change_content_type c "application/json") T2 "PUT"
        (url2 ++ "/" ++ FDPEndPoints.state) none (some publishBody) req hreq]
      exact getKey_auth_after_change tok "application/json" c hh
  · intro m hm
    exact FDPClient.init_netFail T b u p v m hm
  · intro hT hs
    exact FDPClient.init_httpError T b u p v r hT hs

/-- Witness for C3: construction against a mock token endpoint yields the
expected client, and a later publish request carries the bearer token. -/
theorem C3_construction_auth_witness :
    okTransport (loginRequest "http://fdp.example" "user" "pw") = .response okResponse ∧
    getKey okResponse.jsonFields "token" = some "tok" ∧
    (FDPClient.init okTransport "http://fdp.example" "user" "pw" true).2 =
      [loginRequest "http://fdp.example" "user" "pw"] ∧
    (FDPClient.init okTransport "http://fdp.example" "user" "pw" true).1 =
      .ok sampleClient ∧
    getKey (publishRequest sampleClient "http://fdp.example/rec").headers "Authorization" =
      some ("Bearer " ++ "tok") := by
  have H := C3_construction_auth okTransport "http://fdp.example" "user" "pw" "tok" true
    okResponse
  refine ⟨rfl, rfl, H.1, ?_, ?_⟩
  · exact H.2.2.2.2.1 rfl (by decide) rfl
  · exact (H.2.2.2.2.2.1 sampleClient rfl rfl okTransport).2.2 "http://fdp.example/rec"
      (publishRequest sampleClient "http://fdp.example/rec") (by decide)

/-- C4 counterexample: the claim that the client-facing error carries a
machine-branchable kind and, where available, the remote response body is
false on the code. `FDPClientException` holds only a message string: two
publish failures whose 500 responses differ only in their body (which is
available, and only logged) raise exactly the same error value, so no
component of the error can carry the body, and the only data a caller can
branch on is the message text. -/
theorem C4_error_payload_cex :
    (publish_record sampleClient failBodyATransport "http://fdp.example/rec").result =
      (publish_record sampleClient failBodyBTransport "http://fdp.example/rec").result ∧
    failBodyATransport (publishRequest sampleClient "http://fdp.example/rec") ≠
      failBodyBTransport (publishRequest sampleClient "http://fdp.example/rec") ∧
    (publish_record sampleClient failBodyATransport "http://fdp.example/rec").result =
      .error (.fdp "Request failed:500 Server Error for url: http://fdp.example/rec/meta/state") :=
  ⟨rfl, by decide, rfl⟩

/-- C4 amended: every listed client failure mode (login network failure,
login HTTP error, publish network failure, publish HTTP error, missing
`Location` header) is surfaced as the single client-facing type
`FDPClientException`, whose only payload is a human-readable message; for an
HTTP error the message is a function of the status code and URL alone, so
neither a machine-branchable kind nor the remote response body is attached,
and callers must parse message text to distinguish the failure kinds. -/
theorem C4_single_error_type_message_only :
    (∀ (T : Transport) b u p (v : Bool) m, T (loginRequest b u p) = .netFail m →
      (FDPClient.init T b u p v).1 = .error (.fdp ("Login failed: " ++ m))) ∧
    (∀ (T : Transport) b u p (v : Bool) r, T (loginRequest b u p) = .response r →
      400 ≤ r.status →
      (FDPClient.init T b u p v).1 =
        .error (.fdp ("Login failed: " ++ httpErrorMsg r.status (b ++ "/tokens")))) ∧
    (∀ (c : FDPClient) (T : Transport) url m, isAbsoluteUrl url = true →
      T (publishRequest c url) = .netFail m →
      (publish_record c T url).result = .error (.fdp ("Request failed:" ++ m))) ∧
    (∀ (c : FDPClient) (T : Transport) url r, isAbsoluteUrl url = true →
      T (publishRequest c url) = .response r → 400 ≤ r.status →
      (publish_record c T url).result = .error (.fdp ("Request failed:" ++
        httpErrorMsg r.status (url ++ "/" ++ FDPEndPoints.state)))) ∧
    (∀ (c : FDPClient) (T : Transport) rt g r, isAbsoluteUrl c.base_url = true →
      T (createRequest c rt g) = .response r → r.status < 400 →
      getKey r.headers "Location" = none →
      (create_and_publish c T rt g).result =
        .error (.fdp ("Failed to create and publish record:" ++ pyKeyErrorStr "Location"))) ∧
    (∀ (c : FDPClient) (T : Transport) rt g e,
      (create_and_publish c T rt g).result = .error e → ∃ m, e = .fdp m) ∧
    (∀ (c : FDPClient) method path params data (r1 r2 : HttpResponse),
      400 ≤ r1.status → r1.status = r2.status →
      (callMethod c (fun _ => .response r1) method path params data).result =
        (callMethod c (fun _ => .response r2) method path params data).result) := by
  refine ⟨?_, ?_, ?_, ?_, ?_, ?_, ?_⟩
  · intro T b u p v m hm
    exact FDPClient.init_netFail T b u p v m hm
  · intro T b u p v r hT hs
    exact FDPClient.init_httpError T b u p v r hT hs
  · intro c T url m hp hT
    exact publish_record_result_netFail c T url m hp hT
  · intro c T url r hp hT hs
    have h := publish_record_result_response c T url r hp hT
    rw [if_pos hs] at h
    exact h
  · intro c T rt g r hp hT hs hL
    exact (create_and_publish_noLocation c T rt g r hp hT hs hL).1
  · intro c T rt g e h
    exact create_and_publish_error_is_fdp c T rt g e h
  · intro c method path params data r1 r2 h1 heq
    by_cases hm : supportedMethod method
    · have h2 : 400 ≤ r2.status := heq ▸ h1
      simp only [callMethod, hm, if_true, ite_true]
      rw [if_pos h1, if_pos h2, heq]
    · simp [callMethod, hm]

/-- Witness for the amended C4: concrete instances of the login network
failure and of the body-independence of HTTP errors. -/
theorem C4_single_error_type_message_only_witness :
    sslFailTransport (loginRequest "http://fdp.example" "user" "pw") =
      .netFail "certificate verify failed" ∧
    (FDPClient.init sslFailTransport "http://fdp.example" "user" "pw" true).1 =
      .error (.fdp ("Login failed: " ++ "certificate verify failed")) ∧
    (callMethod sampleClient (fun _ => .response
        { status := 500, headers := [], jsonFields := [], body := "AAA" })
        "PUT" "http://fdp.example/rec/meta/state" none (some publishBody)).result =
      (callMethod sampleClient (fun _ => .response
        { status := 500, headers := [], jsonFields := [], body := "BBB" })
        "PUT" "http://fdp.example/rec/meta/state" none (some publishBody)).result := by
  have H := C4_single_error_type_message_only
  exact ⟨rfl,
    H.1 sslFailTransport "http://fdp.example" "user" "pw" true "certificate verify failed" rfl,
    H.2.2.2.2.2.2 sampleClient "PUT" "http://fdp.example/rec/meta/state" none
      (some publishBody)
      { status := 500, headers := [], jsonFields := [], body := "AAA" }
      { status := 500, headers := [], jsonFields := [], body := "BBB" }
      (by decide) rfl⟩

/-- C5 counterexample: the claim that `post_serialised` and `publish_record`
leave the client's shared header state unchanged is false: a single
`publish_record` call on a freshly constructed client (whose shared
`Content-Type` is `text/turtle`) leaves both the client's `headers` field
and the session headers holding `application/json`. -/
theorem C5_headers_mutated_cex :
    (publish_record sampleClient okTransport "http://fdp.example/rec").client.headers ≠
      sampleClient.headers ∧
    getKey (publish_record sampleClient okTransport
      "http://fdp.example/rec").client.headers "Content-Type" = some "application/json" ∧
    getKey sampleClient.headers "Content-Type" = some "text/turtle" ∧
    (publish_record sampleClient okTransport
      "http://fdp.example/rec").client.sessionHeaders ≠ sampleClient.sessionHeaders :=
  ⟨by decide, rfl, rfl, by decide⟩

/-- C5 amended: content type is shared mutable client state, not per-request
state: every `post_serialised` call leaves the client's `headers` field and
session headers holding `text/turtle`, and every `publish_record` call
leaves them holding `application/json`, so the content type set by one call
persists on the client and is observed by whatever uses the session next. -/
theorem C5_content_type_shared_mutable (c : FDPClient) (T : Transport) (url rt : String)
    (g : Graph) :
    getKey ((publish_record c T url).client).headers "Content-Type" =
      some "application/json" ∧
    getKey ((publish_record c T url).client).sessionHeaders "Content-Type" =
      some "application/json" ∧
    getKey ((post_serialised c T rt g).client).headers "Content-Type" =
      some "text/turtle" ∧
    getKey ((post_serialised c T rt g).client).sessionHeaders "Content-Type" =
      some "text/turtle" := by
  refine ⟨?_, ?_, ?_, ?_⟩
  · rw [publish_record_client]
    exact getKey_headers_change_content_type c "application/json"
  · rw [publish_record_client]
    exact getKey_sessionHeaders_change_content_type c "application/json"
  · rw [post_serialised_client]
    exact getKey_headers_change_content_type c "text/turtle"
  · rw [post_serialised_client]
    exact getKey_sessionHeaders_change_content_type c "text/turtle"

/-- C6: when the create step succeeds (2xx with a `Location`) and the
publish step fails with an HTTP error, `create_and_publish` raises but has
issued exactly the create `POST` and the publish `PUT` — no further request,
in particular no rollback of the created record — so the record stays in the
spec's `created` state (not `unsubmitted`); and retrying the publish step
alone on the same identity, with no re-creation, issues exactly one `PUT`
and succeeds as soon as the remote answers 2xx. -/
theorem C6_publish_failure_recoverable (c : FDPClient) (T : Transport) (rt : String)
    (g : Graph) (r1 : HttpResponse) (loc : String) (r2 : HttpResponse)
    (hp : isAbsoluteUrl c.base_url = true)
    (hT1 : T (createRequest c rt g) = .response r1)
    (hlo : 200 ≤ r1.status) (hhi : r1.status < 300)
    (hloc : getKey r1.headers "Location" = some loc)
    (hpl : isAbsoluteUrl loc = true)
    (hT2 : T (publishRequest (change_content_type c "text/turtle") loc) = .response r2)
    (hs2 : 400 ≤ r2.status) :
    (create_and_publish c T rt g).result =
      .error (.fdp ("Failed to create and publish record:" ++ ("Request failed:" ++
        httpErrorMsg r2.status (loc ++ "/" ++ FDPEndPoints.state)))) ∧
    (create_and_publish c T rt g).trace =
      [createRequest c rt g,
       publishRequest (change_content_type c "text/turtle") loc] ∧
    (createRequest c rt g).method = "POST" ∧
    (publishRequest (change_content_type c "text/turtle") loc).method = "PUT" ∧
    recordState true false = RecordState.created ∧
    RecordState.created ≠ RecordState.unsubmitted ∧
    (∀ (T2 : Transport) (r3 : HttpResponse),
      T2 (publishRequest ((create_and_publish c T rt g).client) loc) = .response r3 →
      r3.status < 400 →
      (publish_record ((create_and_publish c T rt g).client) T2 loc).result = .ok () ∧
      (publish_record ((create_and_publish c T rt g).client) T2 loc).trace =
        [publishRequest ((create_and_publish c T rt g).client) loc] ∧
      (publishRequest ((create_and_publish c T rt g).client) loc).method = "PUT") := by
  have hs1 : r1.status < 400 := lt_of_lt_of_le hhi (by norm_num)
  have H := create_and_publish_publish_httpError c T rt g r1 loc r2 hp hT1 hs1 hloc hpl
    hT2 hs2
  refine ⟨H.1, H.2, rfl, rfl, rfl, by decide, ?_⟩
  intro T2 r3 hT3 hs3
  have h3 := publish_record_result_response ((create_and_publish c T rt g).client) T2 loc
    r3 hpl hT3
  rw [if_neg (Nat.not_le.mpr hs3)] at h3
  exact ⟨h3, publish_record_trace ((create_and_publish c T rt g).client) T2 loc hpl, rfl⟩

/-- Witness for C6: create succeeds and publish fails with 500 against
`twoPhaseFailTransport`; the failed run issued exactly the create and
publish requests, and retrying `publish_record` alone against a transport
that now answers 200 succeeds with a single request. -/
theorem C6_publish_failure_recoverable_witness :
    (create_and_publish sampleClient twoPhaseFailTransport "catalog" gA).result =
      .error (.fdp "Failed to create and publish record:Request failed:500 Server Error for url: http://fdp.example/catalog/1/meta/state") ∧
    (create_and_publish sampleClient twoPhaseFailTransport "catalog" gA).trace =
      [createRequest sampleClient "catalog" gA,
       publishRequest (change_content_type sampleClient "text/turtle") scenarioLocation] ∧
    (publish_record
      ((create_and_publish sampleClient twoPhaseFailTransport "catalog" gA).client)
      okTransport scenarioLocation).result = .ok () ∧
    (publish_record
      ((create_and_publish sampleClient twoPhaseFailTransport "catalog" gA).client)
      okTransport scenarioLocation).trace =
      [publishRequest
        ((create_and_publish sampleClient twoPhaseFailTransport "catalog" gA).client)
        scenarioLocation] := by
  have H := C6_publish_failure_recoverable sampleClient twoPhaseFailTransport "catalog" gA
    createdResponse scenarioLocation serverErrorResponse (by decide) rfl (by decide)
    (by decide) rfl (by decide) rfl (by decide)
  have HR := H.2.2.2.2.2.2 okTransport okResponse rfl (by decide)
  exact ⟨H.1, H.2.1, HR.1, HR.2.1⟩

/-- C7: for every record instance missing at least one mandatory field,
validation fails before any network interaction (it is a pure function, no
transport appears in it) and the single failure lists exactly the mandatory
fields that are missing — all of them, not only the first encountered. The
schema layer is spec-modelled (see `validate`); the catalog scenario with
mandatory `title` and `description` is settled in the witness. -/
theorem C7_validation_lists_all_missing (s : RecordSchema)
    (values : List (String × List String))
    (h : ∃ f, f ∈ mandatoryFields s ∧ fieldMissing values f = true) :
    validate s values =
      .error ((mandatoryFields s).filter (fun f => fieldMissing values f)) ∧
    (∀ f, f ∈ (mandatoryFields s).filter (fun f => fieldMissing values f) ↔
      (f ∈ mandatoryFields s ∧ fieldMissing values f = true)) := by
  obtain ⟨f0, hf0, hm0⟩ := h
  constructor
  · have hmem : f0 ∈ (mandatoryFields s).filter (fun f => fieldMissing values f) :=
      List.mem_filter.mpr ⟨hf0, hm0⟩
    have hne : ¬((mandatoryFields s).filter (fun f => fieldMissing values f)).isEmpty = true := by
      intro hE
      rw [List.isEmpty_iff] at hE
      rw [hE] at hmem
      exact List.not_mem_nil f0 hmem
    simp [validate, hne]
  · intro f
    exact List.mem_filter

/-- Witness for C7: the catalog schema marks `title` and `description`
mandatory; an instance with a title and no description fails validation
naming exactly `description` as missing. -/
theorem C7_validation_lists_all_missing_witness :
    ("description" ∈ mandatoryFields catalogSchema ∧
      fieldMissing titleOnlyValues "description" = true) ∧
    validate catalogSchema titleOnlyValues = .error ["description"] ∧
    ("description" ∈ (["description"] : List String) ↔
      ("description" ∈ mandatoryFields catalogSchema ∧
        fieldMissing titleOnlyValues "description" = true)) := by
  have H := C7_validation_lists_all_missing catalogSchema titleOnlyValues
    ⟨"description", by decide, rfl⟩
  exact ⟨⟨by decide, rfl⟩, H.1, H.2 "description"⟩

/-- C8: the bulk publish loop submits each record independently: a failure
on one record is recorded (as the caught `FDPClientException`) and the loop
continues with the remaining records from the client state it reached, and
every record of the batch gets exactly one outcome — no all-or-nothing
transaction. -/
theorem C8_bulk_publish_independent (c : FDPClient) (T : Transport) (g : Graph)
    (rest : List Graph) (e : PyError)
    (h : (create_and_publish c T "dataset" g).result = .error e) :
    (bulkPublish c T (g :: rest)).1 =
      .error e :: (bulkPublish (create_and_publish c T "dataset" g).client T rest).1 ∧
    (∀ (c3 : FDPClient) (T3 : Transport) graphs,
      (bulkPublish c3 T3 graphs).1.length = graphs.length) :=
  ⟨bulkPublish_cons_error c T g rest e h,
   fun c3 T3 graphs => bulkPublish_length c3 T3 graphs⟩

/-- Witness for C8: with a transport failing the first dataset's creation
and accepting the second, the loop reports the first failure and still
creates and publishes the second record. -/
theorem C8_bulk_publish_independent_witness :
    (create_and_publish sampleClient bulkTransport "dataset" gA).result =
      .error (.fdp "Failed to create and publish record:Request failed:500 Server Error for url: http://fdp.example/dataset") ∧
    (bulkPublish sampleClient bulkTransport [gA, gB]).1 =
      .error (.fdp "Failed to create and publish record:Request failed:500 Server Error for url: http://fdp.example/dataset")
        :: (bulkPublish (create_and_publish sampleClient bulkTransport "dataset" gA).client
            bulkTransport [gB]).1 ∧
    (bulkPublish sampleClient bulkTransport [gA, gB]).1.length = 2 ∧
    (bulkPublish sampleClient bulkTransport [gA, gB]).1 =
      [.error (.fdp "Failed to create and publish record:Request failed:500 Server Error for url: http://fdp.example/dataset"),
       .ok scenarioLocation] := by
  have H := C8_bulk_publish_independent sampleClient bulkTransport gA [gB]
    (.fdp "Failed to create and publish record:Request failed:500 Server Error for url: http://fdp.example/dataset")
    rfl
  exact ⟨rfl, H.1, H.2 sampleClient bulkTransport [gA, gB], rfl⟩

/-- C9: the authentication request sent at construction always carries the
default certificate verification (verify true), whatever `verify_ssl` says:
`login_fdp` runs before `ssl_verification` is assigned and passes no verify
argument. Every later request of a constructed client carries
`verify = verify_ssl`; and constructing a client with `verify_ssl = false`
against a host whose certificate fails default verification still fails at
login with `FDPClientException`. -/
theorem C9_login_ignores_verify_ssl (T : Transport) (b u p : String) (v : Bool)
    (m : String) :
    (loginRequest b u p).verify = true ∧
    (FDPClient.init T b u p v).2 = [loginRequest b u p] ∧
    (∀ c : FDPClient, (FDPClient.init T b u p v).1 = .ok c →
      c.ssl_verification = v ∧
      (∀ (T2 : Transport) method path params data,
        ∀ req ∈ (callMethod c T2 method path params data).trace, req.verify = v)) ∧
    ((∀ q : HttpRequest, q.verify = true → T q = .netFail m) →
      (FDPClient.init T b u p false).1 = .error (.fdp ("Login failed: " ++ m))) := by
  refine ⟨rfl, FDPClient.init_trace T b u p v, ?_, ?_⟩
  · intro c hc
    rcases hE : login_fdp T b u p with ⟨res, tr⟩
    cases res with
    | error e =>
      have hbad : (FDPClient.init T b u p v).1 = .error e := by
        simp [FDPClient.init, hE]
      rw [hbad] at hc
      simp at hc
    | ok tok =>
      have hok : (FDPClient.init T b u p v).1 = .ok
          { base_url := b, username := u, password := p, token := tok,
            headers := get_headers tok,
            sessionHeaders := updateDict [] (get_headers tok),
            ssl_verification := v } := by
        simp [FDPClient.init, hE]
      rw [hok] at hc
      simp only [Except.ok.injEq] at hc
      subst hc
      refine ⟨rfl, ?_⟩
      intro T2 method path params data req hreq
      rw [callMethod_trace_verify _ T2 method path params data req hreq]
  · intro hq
    exact FDPClient.init_netFail T b u p false m (hq (loginRequest b u p) rfl)

/-- Witness for C9: the login request carries verify true; a client built
with `verify_ssl = false` stores false for later requests; and against a
host with an untrusted certificate, construction with `verify_ssl = false`
still fails at login. -/
theorem C9_login_ignores_verify_ssl_witness :
    (loginRequest "http://fdp.example" "user" "pw").verify = true ∧
    sampleClientNoSsl.ssl_verification = false ∧
    (FDPClient.init sslFailTransport "http://fdp.example" "user" "pw" false).1 =
      .error (.fdp ("Login failed: " ++ "certificate verify failed")) := by
  have H1 := C9_login_ignores_verify_ssl okTransport "http://fdp.example" "user" "pw"
    false "certificate verify failed"
  have H2 := C9_login_ignores_verify_ssl sslFailTransport "http://fdp.example" "user" "pw"
    false "certificate verify failed"
  exact ⟨H1.1, (H1.2.2.1 sampleClientNoSsl rfl).1,
    H2.2.2.2 (fun q hq => by simp [sslFailTransport, hq])⟩

/-- C10: `create_and_publish` returns an identity only when both the create
step and the publish step succeed, and that identity is the `Location`
value; when the create step succeeds but the publish step fails (HTTP error
or network failure), it raises the client-level error — whose only payload
is a message string, with no structured field carrying the identity — so the
just-created record's identity is not returned to the caller. -/
theorem C10_identity_only_on_full_success (c : FDPClient) (T : Transport) (rt : String)
    (g : Graph) (r1 : HttpResponse) (loc : String)
    (hp : isAbsoluteUrl c.base_url = true)
    (hT1 : T (createRequest c rt g) = .response r1)
    (hlo : 200 ≤ r1.status) (hhi : r1.status < 300)
    (hloc : getKey r1.headers "Location" = some loc)
    (hpl : isAbsoluteUrl loc = true) :
    (∀ u, (create_and_publish c T rt g).result = .ok u →
      u = loc ∧ ∃ r2,
        T (publishRequest (change_content_type c "text/turtle") loc) = .response r2 ∧
          r2.status < 400) ∧
    (∀ m, T (publishRequest (change_content_type c "text/turtle") loc) = .netFail m →
      (create_and_publish c T rt g).result =
        .error (.fdp ("Failed to create and publish record:" ++ ("Request failed:" ++ m)))) ∧
    (∀ r2, T (publishRequest (change_content_type c "text/turtle") loc) = .response r2 →
      400 ≤ r2.status →
      (create_and_publish c T rt g).result =
        .error (.fdp ("Failed to create and publish record:" ++ ("Request failed:" ++
          httpErrorMsg r2.status (loc ++ "/" ++ FDPEndPoints.state))))) := by
  have hs1 : r1.status < 400 := lt_of_lt_of_le hhi (by norm_num)
  refine ⟨fun u hu =>
      create_and_publish_ok_publish c T rt g u loc r1 hp hT1 hs1 hloc hpl hu,
    fun m hm2 =>
      create_and_publish_publish_netFail c T rt g r1 loc m hp hT1 hs1 hloc hpl hm2,
    fun r2 hr2 hs2 =>
      (create_and_publish_publish_httpError c T rt g r1 loc r2 hp hT1 hs1 hloc hpl
        hr2 hs2).1⟩

/-- Witness for C10: against a transport whose publish step returns 500, the
failed run raises the wrapped client-level error and does not return the
identity. -/
theorem C10_identity_only_on_full_success_witness :
    twoPhaseFailTransport (createRequest sampleClient "catalog" gA) =
      .response createdResponse ∧
    getKey createdResponse.headers "Location" = some scenarioLocation ∧
    (create_and_publish sampleClient twoPhaseFailTransport "catalog" gA).result =
      .error (.fdp "Failed to create and publish record:Request failed:500 Server Error for url: http://fdp.example/catalog/1/meta/state") := by
  have H := C10_identity_only_on_full_success sampleClient twoPhaseFailTransport "catalog"
    gA createdResponse scenarioLocation (by decide) rfl (by decide) (by decide) rfl
    (by decide)
  exact ⟨rfl, rfl, H.2.2 serverErrorResponse rfl (by decide)⟩

end SeMPyRO
